import Mathlib

/-!
Verification of the keyword-driven bill classification and provision-scoring
engine of the MIT-Policy-Hackathon repository.

The Python sources embedded here:
* `HACKATHON_DELIVERABLES/scripts/policy_analysis.py` — `identify_children_related_bills`
  (relevance classifier with a `Content Regulation` theme bonus) and
  `identify_common_provisions` (exact `Status == 'Passed'` population filter).
* `HACKATHON_DELIVERABLES/scripts/comprehensive_analysis.py` —
  `identify_children_related_bills` (relevance classifier without that bonus).
* `POLICY_MEMO_ANALYSIS/scripts/verify_policy_memo_data.py` — passed-bill filter
  (`__init__`), `compute_geographic_inequity` (8-provision taxonomy, per-state
  scoring, tiering, mean / population standard deviation) and
  `compute_state_consensus` (adoption percentages and their presentation order).
* `HACKATHON_DELIVERABLES/scripts/enhanced_analysis.py` — `analyze_geographic_inequity`
  (description-only provision matching, tier labels, `np.std` inequity index).

Modelling conventions: a pandas cell that may be `NaN` is an `Option String`
(`none` = `NaN`); `Series.str.contains(kw, case=False, regex=False, na=False)`
is case-insensitive substring containment returning `false` on `none`;
`re.search('|'.join(kws), text, re.IGNORECASE)` over the purely literal keyword
lists of the sources is "some keyword is a case-insensitive substring";
Python's `'lit' in s` is case-sensitive substring containment; the f-string
`f"{x}"` renders `NaN` as `"nan"`; `np.mean` / `np.std` over an empty array
yield `NaN`, modelled as `none`; rationals stand in for floats (all quantities
compared here are exactly representable small rationals).
-/

/-- Boolean substring test on character lists: `needle` occurs inside `hay`. -/
def listInfixOf (nee : List Char) : List Char → Bool
  | [] => nee.isEmpty
  | c :: t => nee.isPrefixOf (c :: t) || listInfixOf nee t

/-- Lower-cased character list of a string (Python `str.lower()` on the ASCII
keyword material used by the scripts). -/
def lowerChars (s : String) : List Char := s.data.map Char.toLower

/-- Case-insensitive substring containment: embeds
`hay_series.str.contains(nee, case=False, regex=False)` on a non-null cell,
and a single-literal `re.search(nee, hay, re.IGNORECASE)`. -/
def ciSubstr (nee hay : String) : Bool := listInfixOf (lowerChars nee) (lowerChars hay)

/-- Case-sensitive substring containment: embeds Python `nee in hay`. -/
def csSubstr (nee hay : String) : Bool := listInfixOf nee.data hay.data

/-- One row of the legislative tracker table, with the cells the analysed
scripts read.  `none` models a pandas `NaN` cell. -/
structure Bill where
  state : String
  name : Option String
  description : Option String
  themes : Option String
  status : Option String
deriving DecidableEq, Repr

/-- Python `f"{cell}"`: a `NaN` cell prints as `"nan"`. -/
def strOrNan : Option String → String
  | none => "nan"
  | some s => s

/-- `children_keywords` of `identify_children_related_bills`
(identical in `policy_analysis.py` and `comprehensive_analysis.py`). -/
def childrenKeywords : List String :=
  ["children", "child", "minor", "minors", "student", "students",
   "kids", "youth", "juvenile", "adolescent", "teen", "teenager",
   "parental", "parent", "guardian", "family", "school", "k-12",
   "age verification", "age-verification", "underage", "young people"]

/-- `safety_keywords` of `identify_children_related_bills`. -/
def safetyKeywords : List String :=
  ["safety", "protect", "protection", "secure", "security",
   "privacy", "harmful", "abuse", "exploitation", "predator"]

/-- `tech_keywords` of `identify_children_related_bills`. -/
def techKeywords : List String :=
  ["online", "internet", "social media", "platform", "digital",
   "website", "app", "device", "screen", "cyber"]

/-- `pd.notna(cell) and re.search('|'.join(kws), str(cell), re.IGNORECASE)`:
the guarded per-field keyword search of the relevance classifiers. -/
def fieldSearch (f : Option String) (kws : List String) : Bool :=
  match f with
  | none => false
  | some s => kws.any (fun kw => ciSubstr kw s)

/-- `combined_text = f"{row['Name']} {row['Description']} {row['Themes']}"`. -/
def combinedText (b : Bill) : String :=
  strOrNan b.name ++ " " ++ strOrNan b.description ++ " " ++ strOrNan b.themes

/-- `re.search('|'.join(kws), combined_text, re.IGNORECASE)`. -/
def combinedSearch (b : Bill) (kws : List String) : Bool :=
  kws.any (fun kw => ciSubstr kw (combinedText b))

/-- `pd.notna(row['Themes']) and tag in str(row['Themes'])` — the literal,
case-sensitive theme-tag checks of the relevance classifiers. -/
def themeLit (b : Bill) (tag : String) : Bool :=
  match b.themes with
  | none => false
  | some t => csSubstr tag t

/-- `children_score` computed by
`comprehensive_analysis.ComprehensiveAnalyzer.identify_children_related_bills`. -/
def comprehensiveScore (b : Bill) : Nat :=
  (if fieldSearch b.name childrenKeywords then 3 else 0)
  + (if fieldSearch b.description childrenKeywords then 2 else 0)
  + (if fieldSearch b.themes childrenKeywords then 2 else 0)
  + (if combinedSearch b safetyKeywords then 1 else 0)
  + (if combinedSearch b techKeywords then 1 else 0)
  + (if themeLit b "Children" then 3 else 0)
  + (if themeLit b "Online Safety" then 2 else 0)

/-- `children_score` computed by
`policy_analysis.PolicyAnalyzer.identify_children_related_bills`; it has one
more additive term than `comprehensiveScore`: `+1` when the `Themes` cell
contains the literal tag `"Content Regulation"`. -/
def policyScore (b : Bill) : Nat :=
  (if fieldSearch b.name childrenKeywords then 3 else 0)
  + (if fieldSearch b.description childrenKeywords then 2 else 0)
  + (if fieldSearch b.themes childrenKeywords then 2 else 0)
  + (if combinedSearch b safetyKeywords then 1 else 0)
  + (if combinedSearch b techKeywords then 1 else 0)
  + (if themeLit b "Children" then 3 else 0)
  + (if themeLit b "Online Safety" then 2 else 0)
  + (if themeLit b "Content Regulation" then 1 else 0)

/-- The relevance-score formula exactly as the specification words it
(§4.1 / claim C1): the sum of the seven listed contributions and nothing
else.  Stated for comparison with the two source classifiers. -/
def specRelevanceScore (b : Bill) : Nat :=
  (if fieldSearch b.name childrenKeywords then 3 else 0)
  + (if fieldSearch b.description childrenKeywords then 2 else 0)
  + (if fieldSearch b.themes childrenKeywords then 2 else 0)
  + (if combinedSearch b safetyKeywords then 1 else 0)
  + (if combinedSearch b techKeywords then 1 else 0)
  + (if themeLit b "Children" then 3 else 0)
  + (if themeLit b "Online Safety" then 2 else 0)

/-- The Scenario A bill of the specification (§8). -/
def scenarioABill : Bill :=
  { state := "TestState"
    name := some "Child Online Safety Act"
    description := some "requires parental consent and age verification"
    themes := some "Children, Online Safety"
    status := some "Passed" }

/-- A bill whose only signal is the `"Content Regulation"` theme tag. -/
def contentRegBill : Bill :=
  { state := "TestState"
    name := none
    description := none
    themes := some "Content Regulation"
    status := none }

/-- `state_bills['Description'].str.contains(kw, case=False, na=False, regex=False)`
restricted to one row: does the bill's `Description` cell contain `kw`
case-insensitively (`NaN` never matches)? -/
def descContains (b : Bill) (kw : String) : Bool :=
  match b.description with
  | none => false
  | some d => ciSubstr kw d

/-- The 8-provision taxonomy of
`verify_policy_memo_data.compute_geographic_inequity` (the `provisions`
dict, in its literal insertion order). -/
def provisions8 : List (String × List String) :=
  [("transparency_reporting",
    ["transparency report", "disclosure", "annual report",
     "transparency", "reporting requirement", "public report"]),
   ("digital_literacy_education",
    ["digital literacy", "digital citizenship", "education",
     "training", "awareness program", "curriculum", "digital wellness"]),
   ("data_privacy_standards",
    ["data privacy", "data protection", "personal data",
     "privacy by design", "data minimization", "privacy standard",
     "data collection", "privacy policy"]),
   ("platform_liability",
    ["liability", "duty of care", "negligent", "civil action",
     "damages", "responsible", "accountable", "liable"]),
   ("age_verification",
    ["age verification", "age assurance", "age check",
     "verify age", "age gate", "age authentication", "verify identity"]),
   ("mental_health_protections",
    ["mental health", "addiction", "addictive", "wellness",
     "psychological", "self-harm", "suicide", "depression",
     "well-being", "wellbeing"]),
   ("content_safety_standards",
    ["content moderation", "content safety", "harmful content",
     "filter", "content standard", "inappropriate content",
     "content removal"]),
   ("parental_control_tools",
    ["parental control", "parental consent", "parent approval",
     "guardian consent", "parental dashboard", "parent access",
     "parental notification", "parental rights"])]

/-- The 8-provision taxonomy of
`enhanced_analysis.analyze_geographic_inequity` (the `provisions` dict there). -/
def provisionsEnh : List (String × List String) :=
  [("age_verification", ["age verif", "age assurance", "age check"]),
   ("data_privacy", ["data privacy", "data protection", "personal data", "minimal collection"]),
   ("parental_control", ["parental consent", "parental control", "parent access"]),
   ("platform_liability", ["liability", "duty of care", "negligent harm"]),
   ("content_safety", ["content moderation", "harmful content", "filter"]),
   ("mental_health", ["mental health", "addiction", "wellness", "time limit"]),
   ("transparency", ["transparency", "disclosure", "report"]),
   ("education", ["education", "training", "awareness", "literacy"])]

/-- The inner `for keyword in keywords: ... break` loop of the per-state
provision scoring: the first keyword of the provision matched by some bill of
the state (the loop `break`s at the first hit). -/
def provisionFirstHit (bills : List Bill) (kws : List String) : Option String :=
  kws.find? (fun kw => bills.any (fun b => descContains b kw))

/-- `provisions_present` accumulated by the per-state loop of
`compute_geographic_inequity` / `analyze_geographic_inequity`, over a given
taxonomy: provisions (in taxonomy order) whose keyword loop hit. -/
def stateProvisionsT (tax : List (String × List String)) (bills : List Bill) : List String :=
  tax.filterMap (fun pk => if (provisionFirstHit bills pk.2).isSome then some pk.1 else none)

/-- `score` accumulated by the same loop: `score += 1` exactly when a
provision's keyword loop hit. -/
def stateScoreT (tax : List (String × List String)) (bills : List Bill) : Nat :=
  tax.foldl (fun acc pk => if (provisionFirstHit bills pk.2).isSome then acc + 1 else acc) 0

/-- Per-bill provision set (the spec's Provision Matcher, §4.2): the
provisions whose keyword test the single bill passes on its `Description`. -/
def billProvisionsT (tax : List (String × List String)) (b : Bill) : List String :=
  tax.filterMap (fun pk => if pk.2.any (fun kw => descContains b kw) then some pk.1 else none)

/-- Union of the per-bill provision sets over the bills of one jurisdiction. -/
def unionBillProvisionsT (tax : List (String × List String)) (bills : List Bill) : Finset String :=
  ((bills.map (billProvisionsT tax)).flatten).toFinset

/-- `provisions_present` of one state in `verify_policy_memo_data`. -/
def stateProvisions : List Bill → List String := stateProvisionsT provisions8

/-- Protection `score` of one state in `verify_policy_memo_data`. -/
def stateScore : List Bill → Nat := stateScoreT provisions8

/-- Per-bill provision set against the `verify_policy_memo_data` taxonomy. -/
def billProvisions : Bill → List String := billProvisionsT provisions8

/-- Union of per-bill provision sets, `verify_policy_memo_data` taxonomy. -/
def unionBillProvisions : List Bill → Finset String := unionBillProvisionsT provisions8

/-- `provisions_present` of one state in `enhanced_analysis`. -/
def stateProvisionsE : List Bill → List String := stateProvisionsT provisionsEnh

/-- Protection `score` of one state in `enhanced_analysis`. -/
def stateScoreE : List Bill → Nat := stateScoreT provisionsEnh

/-- Per-bill provision set against the `enhanced_analysis` taxonomy. -/
def billProvisionsE : Bill → List String := billProvisionsT provisionsEnh

/-- Union of per-bill provision sets, `enhanced_analysis` taxonomy. -/
def unionBillProvisionsE : List Bill → Finset String := unionBillProvisionsT provisionsEnh

/-- `children_bills['State'].unique()`: first occurrence of each value, in
encounter order (later duplicates are filtered out of the recursive result). -/
def pdUnique : List String → List String
  | [] => []
  | x :: xs => x :: (pdUnique xs).filter (fun y => y != x)

/-- The jurisdictions the geographic-inequity pass iterates over: the unique
`State` values of the (already filtered) bill table. -/
def analyzedStates (bills : List Bill) : List String := pdUnique (bills.map Bill.state)

/-- `children_bills[children_bills['State'] == state]`. -/
def stateBills (bills : List Bill) (s : String) : List Bill :=
  bills.filter (fun b => b.state == s)

/-- `state_scores`: one `(state, score)` entry per analyzed jurisdiction. -/
def stateScoresMap (bills : List Bill) : List (String × Nat) :=
  (analyzedStates bills).map (fun s => (s, stateScore (stateBills bills s)))

/-- `total_states = len(all_scores)`. -/
def totalStatesAnalyzed (bills : List Bill) : Nat := (stateScoresMap bills).length

/-- `all_scores = list(state_scores.values())`. -/
def allScores (bills : List Bill) : List Nat := (stateScoresMap bills).map Prod.snd

/-- Tier label of `verify_policy_memo_data` (line building `state_scores_df`):
`'High (6-8)' if score >= 6 else 'Medium (4-5)' if score >= 4 else 'Low (0-3)'`. -/
def tierLabelV (score : Nat) : String :=
  if score ≥ 6 then "High (6-8)" else if score ≥ 4 then "Medium (4-5)" else "Low (0-3)"

/-- Tier label of `enhanced_analysis` (`inequity_df` construction):
`'High' if score >= 6 else 'Medium' if score >= 4 else 'Low'`. -/
def tierLabelE (score : Nat) : String :=
  if score ≥ 6 then "High" else if score ≥ 4 then "Medium" else "Low"

/-- `(count / total * 100) if total > 0 else 0` — the guarded percentage used
for the tier and adoption percentages. -/
def pctGuard (count total : Nat) : ℚ :=
  if 0 < total then (count : ℚ) / total * 100 else 0

/-- `pct_low`: share of analyzed states with score at most 3. -/
def pctLow (bills : List Bill) : ℚ :=
  pctGuard ((allScores bills).filter (fun s => s ≤ 3)).length (totalStatesAnalyzed bills)

/-- `pct_medium`: share of analyzed states with score 4 or 5. -/
def pctMedium (bills : List Bill) : ℚ :=
  pctGuard ((allScores bills).filter (fun s => 4 ≤ s && s ≤ 5)).length (totalStatesAnalyzed bills)

/-- `pct_high`: share of analyzed states with score at least 6. -/
def pctHigh (bills : List Bill) : ℚ :=
  pctGuard ((allScores bills).filter (fun s => 6 ≤ s)).length (totalStatesAnalyzed bills)

/-- `np.mean`: arithmetic mean, `NaN` (here `none`) on an empty array. -/
def npMeanQ (l : List ℚ) : Option ℚ :=
  if l.isEmpty then none else some (l.sum / l.length)

/-- `np.var` with the default `ddof=0`: population variance, `NaN` on empty. -/
def npVarQ (l : List ℚ) : Option ℚ :=
  match npMeanQ l with
  | none => none
  | some m => some ((l.map (fun x => (x - m) ^ 2)).sum / l.length)

/-- `np.std` with the default `ddof=0`: square root of the population
variance, `NaN` on empty. -/
noncomputable def npStd (l : List ℚ) : Option ℝ :=
  (npVarQ l).map (fun v : ℚ => Real.sqrt (v : ℝ))

/-- `mean_score = np.mean(all_scores)` of `compute_geographic_inequity`. -/
def meanScoreStat (bills : List Bill) : Option ℚ :=
  npMeanQ ((allScores bills).map (fun n => (n : ℚ)))

/-- `gii_std = std_score = np.std(all_scores)`: the value reported as the
Geographic Inequity Index (`geographic_inequity_index_std`). -/
noncomputable def inequityIndex (scores : List ℚ) : Option ℝ := npStd scores

/-- `std_score` as computed over a bill table. -/
noncomputable def stdScoreStat (bills : List Bill) : Option ℝ :=
  inequityIndex ((allScores bills).map (fun n => (n : ℚ)))

/-- Modelled from the spec (§4.3/§8): the population standard deviation of a
list of scores, `sqrt(sum (x - mean)^2 / n)`. -/
noncomputable def populationStdDev (l : List ℚ) : ℝ :=
  Real.sqrt (((l.map (fun x => (x - l.sum / l.length) ^ 2)).sum / l.length : ℚ) : ℝ)

/-- Modelled from the spec's contrast term: the sample standard deviation,
`sqrt(sum (x - mean)^2 / (n - 1))`. -/
noncomputable def sampleStdDev (l : List ℚ) : ℝ :=
  Real.sqrt (((l.map (fun x => (x - l.sum / l.length) ^ 2)).sum / ((l.length : ℚ) - 1) : ℚ) : ℝ)

/-- `state_df['Status'].str.contains('Passed', na=False, case=False)` — the
passed-bill population filter of `verify_policy_memo_data.__init__` (also
`audit_data.py` and `enhanced_analysis.py`). -/
def verifyPassedFilter (st : Option String) : Bool :=
  match st with
  | none => false
  | some s => ciSubstr "Passed" s

/-- `children_related_df['Status'] == 'Passed'` — the passed-bill selection of
`policy_analysis.identify_common_provisions` (a `NaN` cell compares unequal). -/
def policyPassedFilter (st : Option String) : Bool :=
  match st with
  | none => false
  | some s => s == "Passed"

/-- Split a character list on `'/'` (for the `%d/%m/%Y` date format). -/
def splitSlash : List Char → List (List Char)
  | [] => [[]]
  | c :: t =>
    if c = '/' then [] :: splitSlash t
    else
      match splitSlash t with
      | [] => [[c]]
      | h :: t2 => (c :: h) :: t2

/-- Decimal parse of a nonempty all-digit character list. -/
def digitsToNat (cs : List Char) : Option Nat :=
  if cs ≠ [] ∧ cs.all Char.isDigit then
    some (cs.foldl (fun n c => n * 10 + (c.toNat - 48)) 0)
  else none

/-- Models `pd.to_datetime(cell, format='%d/%m/%Y', errors='coerce')` on one
cell: a day/month/year parse whose failures are coerced to a missing value
(`NaT`, here `none`) instead of raising. -/
def parseDMY (cell : Option String) : Option (Nat × Nat × Nat) :=
  match cell with
  | none => none
  | some s =>
    match splitSlash s.data with
    | [d, m, y] =>
      match digitsToNat d, digitsToNat m, digitsToNat y with
      | some dv, some mv, some yv =>
        if 1 ≤ dv ∧ dv ≤ 31 ∧ 1 ≤ mv ∧ mv ≤ 12 then some (dv, mv, yv) else none
      | _, _, _ => none
    | _ => none

/-- `provision_mapping` of `compute_state_consensus`: taxonomy key to display
name, in its literal insertion order. -/
def provisionMapping : List (String × String) :=
  [("transparency_reporting", "Transparency & Reporting"),
   ("digital_literacy_education", "Digital Literacy Education"),
   ("data_privacy_standards", "Data Privacy Standards"),
   ("platform_liability", "Platform Liability"),
   ("age_verification", "Age Verification"),
   ("mental_health_protections", "Mental Health Protections"),
   ("content_safety_standards", "Content Safety Standards"),
   ("parental_control_tools", "Parental Control Tools")]

/-- One row of the `compute_state_consensus` adoption table. -/
structure ConsRow where
  name : String
  count : Nat
  pct : ℚ
deriving DecidableEq, Repr

/-- `provision_counts[prov]`: number of analyzed states whose
`provisions_present` list contains the provision. -/
def provCount (bills : List Bill) (p : String) : Nat :=
  ((analyzedStates bills).filter
    (fun s => decide (p ∈ stateProvisions (stateBills bills s)))).length

/-- `provision_percentages` in its insertion order (the `provision_mapping`
order): display name, state count and guarded percentage per provision. -/
def consensusInput (bills : List Bill) : List ConsRow :=
  provisionMapping.map (fun pk =>
    ⟨pk.2, provCount bills pk.1, pctGuard (provCount bills pk.1) (totalStatesAnalyzed bills)⟩)

/-- One step of Python's stable sort, specialised to the descending-percentage
key used by `sorted(provision_percentages.items(), key=..., reverse=True)`:
insert a row before the first row of no higher percentage. -/
def insertByPct (x : ConsRow) : List ConsRow → List ConsRow
  | [] => [x]
  | y :: ys => if y.pct ≤ x.pct then x :: y :: ys else y :: insertByPct x ys

/-- Python's `sorted(..., key=percentage, reverse=True)`: a stable sort by
percentage descending (equal keys keep their input order). -/
def pySortByPctDesc (l : List ConsRow) : List ConsRow := l.foldr insertByPct []

/-- The ranked provision table `consensus_df` is built from. -/
def consensusTable (bills : List Bill) : List ConsRow :=
  pySortByPctDesc (consensusInput bills)

/-- The ordering claim C9 asserts for the presented table: percentage strictly
descending, ties in alphabetical order of the provision name. -/
def specTieAlpha (l : List ConsRow) : Prop :=
  l.Pairwise (fun a b => b.pct < a.pct ∨ (a.pct = b.pct ∧ a.name < b.name))

/-- Two single-bill states that tie at 50% on `transparency_reporting` and
`age_verification`: a concrete input exhibiting the tie order. -/
def consDemoBills : List Bill :=
  [{ state := "StateA", name := none, description := some "transparency report",
     themes := none, status := some "Passed" },
   { state := "StateB", name := none, description := some "age verification",
     themes := none, status := some "Passed" }]

/-- A bill whose `Description` matches no provision keyword of either
taxonomy (used to exhibit a counted score-0 jurisdiction). -/
def noProvisionBill : Bill :=
  { state := "Alpha", name := none, description := some "zzz",
    themes := none, status := some "Passed" }

theorem listInfixOf_iff (nee hay : List Char) : listInfixOf nee hay = true ↔ nee <:+: hay := by
  induction hay with
  | nil =>
    simp [listInfixOf, List.isEmpty_iff]
  | cons c t ih =>
    simp only [listInfixOf, Bool.or_eq_true, ih, List.infix_cons_iff,
      List.isPrefixOf_iff_prefix]


/-- C1 counterexample: on a bill whose `Themes` cell is exactly
`"Content Regulation"`, the `policy_analysis` classifier returns 1 while the
sum of the seven contributions listed by the claim is 0 — so `relevance_score`
is not that sum "with no other contributing terms". -/
theorem C1_counterexample :
    policyScore contentRegBill ≠ specRelevanceScore contentRegBill := by
  decide

/-- C1 amended: the `comprehensive_analysis` classifier computes exactly the
seven-term sum the claim lists, and the `policy_analysis` classifier computes
that sum plus one extra `+1` term for a `Themes` cell containing
`"Content Regulation"`; the Scenario A bill scores 14 under both. -/
theorem C1_relevance_formula :
    (∀ b : Bill,
      comprehensiveScore b = specRelevanceScore b
      ∧ policyScore b = specRelevanceScore b
          + (if themeLit b "Content Regulation" then 1 else 0))
    ∧ comprehensiveScore scenarioABill = 14
    ∧ policyScore scenarioABill = 14 :=
  ⟨fun _ => ⟨rfl, rfl⟩, by decide, by decide⟩

/-- C10: a bill whose `Themes` cell contains the literal substring
`"Content Regulation"` scores exactly one point more under the
`policy_analysis` classifier than under the `comprehensive_analysis` one. -/
theorem C10_content_reg_bonus (b : Bill) (t : String) (ht : b.themes = some t)
    (hc : csSubstr "Content Regulation" t = true) :
    policyScore b = comprehensiveScore b + 1 := by
  have hl : themeLit b "Content Regulation" = true := by
    simp [themeLit, ht, hc]
  simp [policyScore, comprehensiveScore, hl]

/-- Witness for C10 at the concrete `contentRegBill`. -/
theorem C10_witness :
    policyScore contentRegBill = comprehensiveScore contentRegBill + 1 :=
  C10_content_reg_bonus contentRegBill "Content Regulation" rfl (by decide)

/-- C4: jurisdiction tier is a pure function of the score with the fixed
thresholds — scores 0–3 are Low, 4–5 Medium, 6 and above High — under both
the `enhanced_analysis` labels and the `verify_policy_memo_data` labels. -/
theorem C4_tier_thresholds (s : Nat) :
    (s ≤ 3 → tierLabelE s = "Low" ∧ tierLabelV s = "Low (0-3)")
    ∧ (4 ≤ s → s ≤ 5 → tierLabelE s = "Medium" ∧ tierLabelV s = "Medium (4-5)")
    ∧ (6 ≤ s → tierLabelE s = "High" ∧ tierLabelV s = "High (6-8)") := by
  refine ⟨fun h => ?_, fun h1 h2 => ?_, fun h => ?_⟩
  · have h6 : ¬ s ≥ 6 := by omega
    have h4 : ¬ s ≥ 4 := by omega
    simp [tierLabelE, tierLabelV, h6, h4]
  · have h6 : ¬ s ≥ 6 := by omega
    have h4 : s ≥ 4 := by omega
    simp [tierLabelE, tierLabelV, h6, h4]
  · have h6 : s ≥ 6 := by omega
    simp [tierLabelE, tierLabelV, h6]

/-- Witness for C4 at the boundary scores 3, 4 and 6. -/
theorem C4_witness :
    tierLabelE 3 = "Low" ∧ tierLabelE 4 = "Medium" ∧ tierLabelE 6 = "High" :=
  ⟨((C4_tier_thresholds 3).1 (by decide)).1,
   ((C4_tier_thresholds 4).2.1 (by decide) (by decide)).1,
   ((C4_tier_thresholds 6).2.2 (by decide)).1⟩

/-- C6 counterexample: the status `"Passed - Signed"` is in the passed
population of `verify_policy_memo_data` (substring, case-insensitive) but not
in that of `policy_analysis.identify_common_provisions`, which selects by
exact equality `Status == 'Passed'` — so "exact equality is not required" is
false for that analysis population. -/
theorem C6_counterexample :
    policyPassedFilter (some "Passed - Signed") = false
    ∧ verifyPassedFilter (some "Passed - Signed") = true := by
  decide

/-- C6 amended: the `verify_policy_memo_data` passed filter accepts exactly
the non-null statuses containing `"Passed"` case-insensitively (so
`"Passed - Signed"` and `"passed and signed"` count), while the
`policy_analysis.identify_common_provisions` population is selected by exact
equality with `"Passed"`, which excludes `"Passed - Signed"`. -/
theorem C6_passed_filters :
    (∀ st : Option String,
      verifyPassedFilter st = true ↔ ∃ s, st = some s ∧ ciSubstr "Passed" s = true)
    ∧ (∀ st : Option String, policyPassedFilter st = true ↔ st = some "Passed")
    ∧ verifyPassedFilter (some "Passed - Signed") = true
    ∧ verifyPassedFilter (some "passed and signed") = true
    ∧ policyPassedFilter (some "Passed - Signed") = false := by
  refine ⟨fun st => ?_, fun st => ?_, by decide, by decide, by decide⟩
  · cases st with
    | none => simp [verifyPassedFilter]
    | some s => simp [verifyPassedFilter]
  · cases st with
    | none => simp [policyPassedFilter]
    | some s => simp [policyPassedFilter]

/-- C8 counterexample: over an empty jurisdiction set the code's
`mean_score = np.mean(all_scores)` is `NaN` (modelled `none`), not the value
0 the claim requires for a zero-denominator mean. -/
theorem C8_counterexample : meanScoreStat [] ≠ some 0 := by decide

/-- C8 amended: missing or unparseable dates coerce to a missing value, the
tier percentages are explicitly guarded to 0 when no jurisdiction was
analyzed, and nothing raises — but the mean and standard deviation of an
empty score list are `NaN` (modelled `none`), not 0. -/
theorem C8_graceful_degradation :
    (∀ count : Nat, pctGuard count 0 = 0)
    ∧ pctLow [] = 0 ∧ pctMedium [] = 0 ∧ pctHigh [] = 0
    ∧ parseDMY (some "not a date") = none
    ∧ parseDMY (some "31/13/2020") = none
    ∧ parseDMY none = none
    ∧ parseDMY (some "05/11/2025") = some (5, 11, 2025)
    ∧ meanScoreStat [] = none
    ∧ stdScoreStat [] = none := by
  refine ⟨fun c => by simp [pctGuard], by decide, by decide, by decide,
    by decide, by decide, by decide, by decide, by decide, rfl⟩

theorem provisionFirstHit_isSome (bills : List Bill) (kws : List String) :
    (provisionFirstHit bills kws).isSome
      = kws.any (fun kw => bills.any (fun b => descContains b kw)) := by
  induction kws with
  | nil => rfl
  | cons k t ih =>
    by_cases h : bills.any (fun b => descContains b k) <;>
      simp [provisionFirstHit, List.find?_cons, h, List.any_cons]
    simpa [provisionFirstHit] using ih

theorem stateScoreT_foldl (tax : List (String × List String)) (bills : List Bill) (n : Nat) :
    tax.foldl (fun acc pk => if (provisionFirstHit bills pk.2).isSome then acc + 1 else acc) n
      = n + (stateProvisionsT tax bills).length := by
  induction tax generalizing n with
  | nil => simp [stateProvisionsT]
  | cons pk t ih =>
    by_cases h : (provisionFirstHit bills pk.2).isSome <;>
      simp [stateProvisionsT, List.filterMap_cons, h, List.foldl_cons, ih]
    omega

theorem stateScoreT_eq_length (tax : List (String × List String)) (bills : List Bill) :
    stateScoreT tax bills = (stateProvisionsT tax bills).length := by
  simpa using stateScoreT_foldl tax bills 0

theorem stateProvisionsT_sublist (tax : List (String × List String)) (bills : List Bill) :
    List.Sublist (stateProvisionsT tax bills) (tax.map Prod.fst) := by
  induction tax with
  | nil => simp [stateProvisionsT]
  | cons pk t ih =>
    by_cases h : (provisionFirstHit bills pk.2).isSome
    · simpa [stateProvisionsT, List.filterMap_cons, h] using ih.cons₂ pk.1
    · simpa [stateProvisionsT, List.filterMap_cons, h] using ih.cons pk.1

theorem stateProvisionsT_nodup (tax : List (String × List String)) (bills : List Bill)
    (h : (tax.map Prod.fst).Nodup) : (stateProvisionsT tax bills).Nodup :=
  h.sublist (stateProvisionsT_sublist tax bills)

theorem mem_stateProvisionsT (tax : List (String × List String)) (bills : List Bill)
    (p : String) :
    p ∈ stateProvisionsT tax bills
      ↔ ∃ pk ∈ tax, (∃ kw ∈ pk.2, ∃ b ∈ bills, descContains b kw = true) ∧ pk.1 = p := by
  simp only [stateProvisionsT, List.mem_filterMap, Option.ite_none_right_eq_some,
    Option.some.injEq, provisionFirstHit_isSome, List.any_eq_true]

theorem mem_billProvisionsT (tax : List (String × List String)) (b : Bill) (p : String) :
    p ∈ billProvisionsT tax b
      ↔ ∃ pk ∈ tax, (∃ kw ∈ pk.2, descContains b kw = true) ∧ pk.1 = p := by
  simp only [billProvisionsT, List.mem_filterMap, Option.ite_none_right_eq_some,
    Option.some.injEq, List.any_eq_true]

theorem mem_unionBillProvisionsT (tax : List (String × List String)) (bills : List Bill)
    (p : String) :
    p ∈ unionBillProvisionsT tax bills ↔ ∃ b ∈ bills, p ∈ billProvisionsT tax b := by
  simp [unionBillProvisionsT, List.mem_flatten]

theorem stateProvisionsT_toFinset (tax : List (String × List String)) (bills : List Bill) :
    (stateProvisionsT tax bills).toFinset = unionBillProvisionsT tax bills := by
  ext p
  simp only [List.mem_toFinset, mem_stateProvisionsT, mem_unionBillProvisionsT,
    mem_billProvisionsT]
  constructor
  · rintro ⟨pk, hpk, ⟨kw, hkw, b, hb, hd⟩, hfst⟩
    exact ⟨b, hb, pk, hpk, ⟨kw, hkw, hd⟩, hfst⟩
  · rintro ⟨b, hb, pk, hpk, ⟨kw, hkw, hd⟩, hfst⟩
    exact ⟨pk, hpk, ⟨kw, hkw, b, hb, hd⟩, hfst⟩

/-- C3: after an aggregation pass over one jurisdiction's bills, the score is
the cardinality of the provision set, the provision set is the union of the
per-bill provision sets, and the score is at most 8 — for the
`verify_policy_memo_data` engine and the `enhanced_analysis` engine alike. -/
theorem C3_score_card_union (bills : List Bill) :
    stateScore bills = (stateProvisions bills).toFinset.card
    ∧ (stateProvisions bills).toFinset = unionBillProvisions bills
    ∧ stateScore bills ≤ 8
    ∧ stateScoreE bills = (stateProvisionsE bills).toFinset.card
    ∧ (stateProvisionsE bills).toFinset = unionBillProvisionsE bills
    ∧ stateScoreE bills ≤ 8 := by
  have h8 : (provisions8.map Prod.fst).Nodup := by decide
  have hE : (provisionsEnh.map Prod.fst).Nodup := by decide
  have len8 : (provisions8.map Prod.fst).length = 8 := by decide
  have lenE : (provisionsEnh.map Prod.fst).length = 8 := by decide
  refine ⟨?_, stateProvisionsT_toFinset provisions8 bills, ?_, ?_,
    stateProvisionsT_toFinset provisionsEnh bills, ?_⟩
  · show stateScoreT provisions8 bills = (stateProvisionsT provisions8 bills).toFinset.card
    rw [stateScoreT_eq_length,
      List.toFinset_card_of_nodup (stateProvisionsT_nodup provisions8 bills h8)]
  · show stateScoreT provisions8 bills ≤ 8
    rw [stateScoreT_eq_length, ← len8]
    exact (stateProvisionsT_sublist provisions8 bills).length_le
  · show stateScoreT provisionsEnh bills = (stateProvisionsT provisionsEnh bills).toFinset.card
    rw [stateScoreT_eq_length,
      List.toFinset_card_of_nodup (stateProvisionsT_nodup provisionsEnh bills hE)]
  · show stateScoreT provisionsEnh bills ≤ 8
    rw [stateScoreT_eq_length, ← lenE]
    exact (stateProvisionsT_sublist provisionsEnh bills).length_le

theorem taxKeyUnique {tax : List (String × List String)} {p : String} {kws : List String}
    {pk : String × List String} (h : (tax.map Prod.fst).Nodup)
    (h1 : (p, kws) ∈ tax) (h2 : pk ∈ tax) (hpk : pk.1 = p) : pk.2 = kws := by
  have := List.inj_on_of_nodup_map h h2 h1 (by simpa using hpk)
  simp [this]

/-- C2: for the fixed 8-key taxonomy, a provision is in a bill's provision
set iff one of its keyword phrases occurs as a case-insensitive substring of
the bill's `Description` cell; the other cells never influence the result. -/
theorem C2_provision_desc_only (b : Bill) (p : String) (kws : List String)
    (hp : (p, kws) ∈ provisions8) :
    ((p ∈ billProvisions b) ↔
      ∃ kw ∈ kws, ∃ d, b.description = some d ∧ lowerChars kw <:+: lowerChars d)
    ∧ ∀ b' : Bill, b'.description = b.description → billProvisions b' = billProvisions b := by
  constructor
  · rw [show billProvisions b = billProvisionsT provisions8 b from rfl,
      mem_billProvisionsT]
    constructor
    · rintro ⟨pk, hpk, ⟨kw, hkw, hd⟩, hfst⟩
      have hkws : pk.2 = kws := taxKeyUnique (by decide) hp hpk hfst
      refine ⟨kw, hkws ▸ hkw, ?_⟩
      cases hdesc : b.description with
      | none => simp [descContains, hdesc] at hd
      | some d =>
        exact ⟨d, rfl, (listInfixOf_iff _ _).1
          (by simpa [descContains, hdesc, ciSubstr] using hd)⟩
    · rintro ⟨kw, hkw, d, hd, hinf⟩
      exact ⟨(p, kws), hp,
        ⟨kw, hkw, by simp [descContains, hd, ciSubstr, (listInfixOf_iff _ _).2 hinf]⟩, rfl⟩
  · intro b' hdesc
    have hk : ∀ kw, descContains b' kw = descContains b kw := by
      intro kw; simp [descContains, hdesc]
    simp only [billProvisions, billProvisionsT, hk]

/-- Witness for C2: `age_verification` is present for the Scenario A bill,
whose description contains the phrase "age verification". -/
theorem C2_witness : "age_verification" ∈ billProvisions scenarioABill :=
  ((C2_provision_desc_only scenarioABill "age_verification"
      ["age verification", "age assurance", "age check",
       "verify age", "age gate", "age authentication", "verify identity"]
      (by decide)).1).mpr
    ⟨"age verification", by decide,
     "requires parental consent and age verification", rfl,
     (listInfixOf_iff _ _).1 (by decide)⟩

theorem mem_pdUnique (a : String) (l : List String) : a ∈ pdUnique l ↔ a ∈ l := by
  induction l with
  | nil => simp [pdUnique]
  | cons x xs ih =>
    by_cases hax : a = x
    · simp [pdUnique, hax]
    · simp [pdUnique, hax, List.mem_filter, ih, bne_iff_ne]

/-- C7: a jurisdiction enters the analyzed set (the denominator of every tier
and adoption percentage) iff it contributes at least one in-population bill;
a jurisdiction whose bills match no provision is still counted, with score 0. -/
theorem C7_no_bills_excluded (bills : List Bill) (s : String) :
    ((s ∈ analyzedStates bills) ↔ ∃ b ∈ bills, b.state = s)
    ∧ ((∃ b ∈ bills, b.state = s) →
        (∀ b ∈ stateBills bills s, billProvisions b = []) →
        (s, 0) ∈ stateScoresMap bills) := by
  have hmem : (s ∈ analyzedStates bills) ↔ ∃ b ∈ bills, b.state = s := by
    simp [analyzedStates, mem_pdUnique, List.mem_map]
  refine ⟨hmem, fun hex hempty => ?_⟩
  have hs : s ∈ analyzedStates bills := hmem.mpr hex
  have hscore : stateScore (stateBills bills s) = 0 := by
    have hUnion : unionBillProvisions (stateBills bills s) = ∅ := by
      ext p
      simp only [Finset.not_mem_empty, iff_false]
      rw [show unionBillProvisions (stateBills bills s)
        = unionBillProvisionsT provisions8 (stateBills bills s) from rfl,
        mem_unionBillProvisionsT]
      rintro ⟨b, hb, hpb⟩
      rw [show billProvisionsT provisions8 b = billProvisions b from rfl,
        hempty b hb] at hpb
      exact absurd hpb (List.not_mem_nil p)
    have h0 : stateProvisions (stateBills bills s) = [] := by
      rw [← List.toFinset_eq_empty_iff,
        show (stateProvisions (stateBills bills s)).toFinset
          = unionBillProvisions (stateBills bills s) from
          stateProvisionsT_toFinset provisions8 (stateBills bills s), hUnion]
    have := stateScoreT_eq_length provisions8 (stateBills bills s)
    rw [show stateScore (stateBills bills s)
      = stateScoreT provisions8 (stateBills bills s) from rfl, this,
      show stateProvisionsT provisions8 (stateBills bills s)
        = stateProvisions (stateBills bills s) from rfl, h0]
    rfl
  rw [stateScoresMap, List.mem_map]
  exact ⟨s, hs, by rw [hscore]⟩

/-- Witness for C7: one bill with no provision matches makes its state a
counted score-0 jurisdiction, while a state with no bills is absent. -/
theorem C7_witness :
    ("Alpha", 0) ∈ stateScoresMap [noProvisionBill]
    ∧ "Beta" ∉ analyzedStates [noProvisionBill] := by
  constructor
  · exact (C7_no_bills_excluded [noProvisionBill] "Alpha").2
      ⟨noProvisionBill, List.mem_singleton_self _, rfl⟩ (by decide)
  · intro h
    obtain ⟨b, hb, hsb⟩ := (C7_no_bills_excluded [noProvisionBill] "Beta").1.mp h
    rw [List.mem_singleton] at hb
    rw [hb] at hsb
    exact absurd hsb (by decide)


theorem npMeanQ_of_ne_nil (l : List ℚ) (hl : l ≠ []) :
    npMeanQ l = some (l.sum / (l.length : ℚ)) := by
  have h : l.isEmpty = false := by simpa [List.isEmpty_iff] using hl
  simp [npMeanQ, h]

theorem npVarQ_of_ne_nil (l : List ℚ) (hl : l ≠ []) :
    npVarQ l
      = some ((l.map (fun x => (x - l.sum / (l.length : ℚ)) ^ 2)).sum / (l.length : ℚ)) := by
  rw [npVarQ, npMeanQ_of_ne_nil l hl]

/-- C5: the reported inequity index is the population (not sample) standard
deviation of the jurisdiction scores and `mean_score` their arithmetic mean;
on the scores `[0,0,0,8,8]` the mean is exactly `16/5 = 3.2` and the index is
`sqrt(15.36)`, strictly below the sample standard deviation `sqrt(19.2)`. -/
theorem C5_inequity_popstd :
    (∀ l : List ℚ, l ≠ [] → inequityIndex l = some (populationStdDev l))
    ∧ npMeanQ [0, 0, 0, 8, 8] = some (16 / 5)
    ∧ inequityIndex [0, 0, 0, 8, 8] = some (Real.sqrt (1536 / 100))
    ∧ populationStdDev [0, 0, 0, 8, 8] < sampleStdDev [0, 0, 0, 8, 8] := by
  have hvar : npVarQ [0, 0, 0, 8, 8] = some (384 / 25) := by
    rw [npVarQ_of_ne_nil _ (by simp)]
    norm_num
  refine ⟨?_, ?_, ?_, ?_⟩
  · intro l hl
    rw [show inequityIndex l = npStd l from rfl, npStd, npVarQ_of_ne_nil l hl,
      populationStdDev]
    simp
  · rw [npMeanQ_of_ne_nil _ (by simp)]
    norm_num
  · rw [show inequityIndex [0, 0, 0, 8, 8] = npStd [0, 0, 0, 8, 8] from rfl,
      npStd, hvar]
    simp only [Option.map_some', Option.some.injEq]
    congr 1
    push_cast
    norm_num
  · have h1 : populationStdDev [0, 0, 0, 8, 8] = Real.sqrt ((384 / 25 : ℚ) : ℝ) := by
      rw [populationStdDev]
      congr 1
      push_cast
      norm_num
    have h2 : sampleStdDev [0, 0, 0, 8, 8] = Real.sqrt ((96 / 5 : ℚ) : ℝ) := by
      rw [sampleStdDev]
      congr 1
      push_cast
      norm_num
    rw [h1, h2]
    apply Real.sqrt_lt_sqrt
    · push_cast
      norm_num
    · push_cast
      norm_num

/-- Witness for C5 at the concrete score list `[0,0,0,8,8]`. -/
theorem C5_witness :
    inequityIndex [0, 0, 0, 8, 8] = some (populationStdDev [0, 0, 0, 8, 8]) :=
  C5_inequity_popstd.1 [0, 0, 0, 8, 8] (by simp)

theorem mem_insertByPct (z x : ConsRow) (l : List ConsRow) :
    z ∈ insertByPct x l ↔ z = x ∨ z ∈ l := by
  induction l with
  | nil => simp [insertByPct]
  | cons y ys ih =>
    by_cases h : y.pct ≤ x.pct
    · simp [insertByPct, h]
    · simp only [insertByPct, if_neg h, List.mem_cons, ih]
      tauto

theorem pairwise_insertByPct (x : ConsRow) (l : List ConsRow)
    (hl : l.Pairwise (fun a b => b.pct ≤ a.pct)) :
    (insertByPct x l).Pairwise (fun a b => b.pct ≤ a.pct) := by
  induction l with
  | nil => simp [insertByPct]
  | cons y ys ih =>
    rcases List.pairwise_cons.1 hl with ⟨hy, hys⟩
    by_cases h : y.pct ≤ x.pct
    · rw [insertByPct, if_pos h, List.pairwise_cons]
      refine ⟨fun z hz => ?_, hl⟩
      rcases List.mem_cons.1 hz with rfl | hz'
      · exact h
      · exact le_trans (hy z hz') h
    · rw [insertByPct, if_neg h, List.pairwise_cons]
      refine ⟨fun z hz => ?_, ih hys⟩
      rcases (mem_insertByPct z x ys).1 hz with rfl | hz'
      · exact le_of_lt (not_le.mp h)
      · exact hy z hz'

theorem filter_insertByPct (x : ConsRow) (l : List ConsRow) (c : ℚ) :
    (insertByPct x l).filter (fun r => decide (r.pct = c))
      = if x.pct = c then x :: l.filter (fun r => decide (r.pct = c))
        else l.filter (fun r => decide (r.pct = c)) := by
  induction l with
  | nil =>
    by_cases hx : x.pct = c
    · simp [insertByPct, List.filter, hx]
    · simp [insertByPct, List.filter, hx]
  | cons y ys ih =>
    by_cases h : y.pct ≤ x.pct
    · rw [insertByPct, if_pos h]
      by_cases hx : x.pct = c
      · simp [List.filter_cons, hx]
      · simp [List.filter_cons, hx]
    · rw [insertByPct, if_neg h]
      by_cases hx : x.pct = c
      · have hy : ¬ y.pct = c := fun hyc => h (by rw [hyc, hx])
        simp [List.filter_cons, hx, hy, ih]
      · simp [List.filter_cons, hx, ih]

theorem pairwise_pySort (l : List ConsRow) :
    (pySortByPctDesc l).Pairwise (fun a b => b.pct ≤ a.pct) := by
  induction l with
  | nil => simp [pySortByPctDesc]
  | cons x xs ih =>
    rw [pySortByPctDesc, List.foldr_cons]
    exact pairwise_insertByPct x _ ih

theorem filter_pySort (l : List ConsRow) (c : ℚ) :
    (pySortByPctDesc l).filter (fun r => decide (r.pct = c))
      = l.filter (fun r => decide (r.pct = c)) := by
  induction l with
  | nil => rfl
  | cons x xs ih =>
    have hfold : List.foldr insertByPct ([] : List ConsRow) xs = pySortByPctDesc xs := rfl
    rw [pySortByPctDesc, List.foldr_cons, filter_insertByPct, hfold, ih, List.filter_cons]
    by_cases hx : x.pct = c
    · simp [hx]
    · simp [hx]

/-- C9 amended: the presented provision table is sorted by percentage
descending, and rows with equal percentage keep the fixed taxonomy
(`provision_mapping` insertion) order of `consensusInput` — Python's `sorted`
is stable and is given only the percentage as key, so ties are *not*
reordered alphabetically. -/
theorem C9_sort_stable (bills : List Bill) :
    (consensusTable bills).Pairwise (fun a b => b.pct ≤ a.pct)
    ∧ ∀ c : ℚ, (consensusTable bills).filter (fun r => decide (r.pct = c))
        = (consensusInput bills).filter (fun r => decide (r.pct = c)) :=
  ⟨pairwise_pySort (consensusInput bills), fun c => filter_pySort (consensusInput bills) c⟩

/-- C9 counterexample: on `consDemoBills`, `transparency_reporting` and
`age_verification` tie at 50%, and the presented table keeps
"Transparency & Reporting" (taxonomy order) ahead of "Age Verification"
(alphabetical order), so the claimed alphabetical tie-break is violated. -/
theorem C9_counterexample : ¬ specTieAlpha (consensusTable consDemoBills) := by
  have h1 : provCount consDemoBills "transparency_reporting" = 1 := by decide
  have h2 : provCount consDemoBills "digital_literacy_education" = 0 := by decide
  have h3 : provCount consDemoBills "data_privacy_standards" = 0 := by decide
  have h4 : provCount consDemoBills "platform_liability" = 0 := by decide
  have h5 : provCount consDemoBills "age_verification" = 1 := by decide
  have h6 : provCount consDemoBills "mental_health_protections" = 0 := by decide
  have h7 : provCount consDemoBills "content_safety_standards" = 0 := by decide
  have h8 : provCount consDemoBills "parental_control_tools" = 0 := by decide
  have htot : totalStatesAnalyzed consDemoBills = 2 := by decide
  have hp50 : pctGuard 1 2 = 50 := by norm_num [pctGuard]
  have hp0 : pctGuard 0 2 = 0 := by norm_num [pctGuard]
  have hInput : consensusInput consDemoBills =
      [⟨"Transparency & Reporting", 1, 50⟩, ⟨"Digital Literacy Education", 0, 0⟩,
       ⟨"Data Privacy Standards", 0, 0⟩, ⟨"Platform Liability", 0, 0⟩,
       ⟨"Age Verification", 1, 50⟩, ⟨"Mental Health Protections", 0, 0⟩,
       ⟨"Content Safety Standards", 0, 0⟩, ⟨"Parental Control Tools", 0, 0⟩] := by
    rw [consensusInput, provisionMapping]
    simp only [List.map_cons, List.map_nil, h1, h2, h3, h4, h5, h6, h7, h8, htot,
      hp50, hp0]
  have hTable : consensusTable consDemoBills =
      [⟨"Transparency & Reporting", 1, 50⟩, ⟨"Age Verification", 1, 50⟩,
       ⟨"Digital Literacy Education", 0, 0⟩, ⟨"Data Privacy Standards", 0, 0⟩,
       ⟨"Platform Liability", 0, 0⟩, ⟨"Mental Health Protections", 0, 0⟩,
       ⟨"Content Safety Standards", 0, 0⟩, ⟨"Parental Control Tools", 0, 0⟩] := by
    rw [consensusTable, hInput, pySortByPctDesc]
    norm_num [List.foldr_cons, List.foldr_nil, insertByPct]
  rw [hTable]
  intro hsorted
  rcases List.pairwise_cons.1 hsorted with ⟨hhead, _⟩
  have hcontra := hhead ⟨"Age Verification", 1, 50⟩ (by simp)
  rcases hcontra with hlt | ⟨_, halpha⟩
  · exact absurd hlt (by norm_num)
  · have hnl : ¬ (("Transparency & Reporting" : String) < "Age Verification") := by
      rw [String.lt_iff_toList_lt]
      decide
    exact hnl halpha
